import Mathlib

/-!
Verification of the move-source fallback chain and the commentary admission
controller of the openenv-chess repository, as a shallow embedding in Lean 4.

Conventions of the embedding:
* Python strings are Lean `String`; moves are UCI strings.
* Python `int` is `Int` (or `Nat` where the source value is provably
  nonnegative); the arithmetic involved never overflows in Python.
* Python `float` arithmetic in the opening-book scoring is modelled over `Rat`;
  every quantity compared in the embedded scenarios is a dyadic or small
  rational that the source computes exactly, and the orderings compared by the
  code coincide with the rational orderings.
* Python `None` / raised exceptions are `Option` / `Except`.
* The python-chess board, the Stockfish engine, the Lichess book and tablebase
  services and the LLM agent are external collaborators: their outputs enter
  the embedded functions as explicit parameters, and the board is abstracted
  to the facts the embedded code reads from it (its FEN, its legal-move list,
  its side to move, and the counts the interest heuristic inspects).
-/

namespace OpenEnvChess

/-! ## Commentary admission controller
Embedded from src/commentary/commentary_strategist.py. -/

/-- Decision values of the enum CommentaryDecision in commentary_strategist.py. -/
inductive CommentaryDecision where
  | SKIP
  | MOVE_COMMENT
  | STRATEGIC_OVERVIEW
  | CRITICAL_MOMENT
  deriving DecidableEq, Repr

/-- Evaluation dictionary as read by the strategist: the field cp is the value
of the "cp" key when present.  A `some` value of `Option EvalDict` stands for
a truthy (non-empty) Python dict passed as the evaluation argument. -/
structure EvalDict where
  cp : Option Int
  deriving DecidableEq, Repr

/-- Embedding of CommentaryStrategist.should_generate_commentary.  The rules
are evaluated in the source order; position_type is accepted and ignored
exactly as in the source. -/
def shouldGenerateCommentary (interestScore : Int) (movesSinceLastCommentary : Int)
    (evaluation : Option EvalDict) (positionType : String)
    (justAfterTactical : Bool) : CommentaryDecision × String :=
  let _ := positionType
  if interestScore ≥ 75 then
    (CommentaryDecision.CRITICAL_MOMENT, "high_interest_score")
  else if (match evaluation with
           | some e => match e.cp with
                       | some cp => decide (cp.natAbs > 150)
                       | none => false
           | none => false) then
    (CommentaryDecision.CRITICAL_MOMENT, "large_evaluation_swing")
  else if movesSinceLastCommentary ≥ 8 then
    (CommentaryDecision.STRATEGIC_OVERVIEW, "many_moves_without_commentary")
  else if justAfterTactical ∧ movesSinceLastCommentary ≥ 4 then
    (CommentaryDecision.STRATEGIC_OVERVIEW, "position_stabilized_after_tactics")
  else if movesSinceLastCommentary ≥ 5 ∧ interestScore < 40 then
    (CommentaryDecision.STRATEGIC_OVERVIEW, "quiet_position_needs_overview")
  else if interestScore ≥ 60 then
    (CommentaryDecision.MOVE_COMMENT, "moderate_interest")
  else if (match evaluation with
           | some e => match e.cp with
                       | some cp => decide (cp.natAbs > 75 ∧ movesSinceLastCommentary ≥ 2)
                       | none => false
           | none => false) then
    (CommentaryDecision.MOVE_COMMENT, "evaluation_change")
  else if interestScore < 30 ∧ movesSinceLastCommentary < 5 then
    (CommentaryDecision.SKIP, "low_interest_and_recent_commentary")
  else if movesSinceLastCommentary ≥ 3 then
    (CommentaryDecision.MOVE_COMMENT, "minimum_move_threshold")
  else
    (CommentaryDecision.SKIP, "default_skip")

/-! ## Orchestrator update of the last-commentary counter
Embedded from GameOrchestrator.run_game_step, lines 493 to 646.  The decision
branches of the orchestrator mutate last_commentary_move_number as follows:
a SKIP decision leaves it untouched; a STRATEGIC_OVERVIEW decision sets it to
the current move number after the generator call returns (an exception in the
generator is swallowed by the handler at line 648, leaving the counter
untouched); a MOVE_COMMENT or CRITICAL_MOMENT decision first consults the
trigger detector and sets the counter only when a trigger other than NONE was
found and the generator call returns (again, exceptions leave it untouched).
The collaborator outcomes enter as the booleans triggerFound (the detector
returned a context with a trigger other than NONE) and genOk (the
generate_commentary call returned without raising). -/

/-- Update of last_commentary_move_number performed by one run_game_step
commentary block, as a function of the admission decision and the collaborator
outcomes. -/
def updateLastCommentary (decision : CommentaryDecision) (triggerFound genOk : Bool)
    (currentMoveNumber lastCommentary : Int) : Int :=
  match decision with
  | CommentaryDecision.SKIP => lastCommentary
  | CommentaryDecision.STRATEGIC_OVERVIEW =>
      if genOk then currentMoveNumber else lastCommentary
  | CommentaryDecision.MOVE_COMMENT =>
      if triggerFound && genOk then currentMoveNumber else lastCommentary
  | CommentaryDecision.CRITICAL_MOMENT =>
      if triggerFound && genOk then currentMoveNumber else lastCommentary

/-- One per-ply commentary step: the admission decision together with the
collaborator outcomes and the current move number. -/
structure CommentaryStep where
  decision : CommentaryDecision
  triggerFound : Bool
  genOk : Bool
  moveNumber : Int
  deriving DecidableEq, Repr

/-- Folding updateLastCommentary over a sequence of per-ply steps of one game. -/
def runCommentarySteps (steps : List CommentaryStep) (lastCommentary : Int) : Int :=
  steps.foldl
    (fun last s => updateLastCommentary s.decision s.triggerFound s.genOk s.moveNumber last)
    lastCommentary

/-! ## Interest scorer
Embedded from CommentaryStrategist.calculate_position_interest and its helper
functions.  The python-chess board is abstracted to the quantities the
heuristic reads from it. -/

/-- Piece counts of one colour (kings excluded where the source excludes them). -/
structure PieceCounts where
  pawns : Nat
  knights : Nat
  bishops : Nat
  rooks : Nat
  queens : Nat
  deriving DecidableEq, Repr

/-- Material value of a side under the piece table of
_calculate_material_imbalance (P=1, N=B=3, R=5, Q=9, king skipped). -/
def PieceCounts.material (p : PieceCounts) : Nat :=
  p.pawns * 1 + p.knights * 3 + p.bishops * 3 + p.rooks * 5 + p.queens * 9

/-- Board facts read by the interest heuristic: isCheck is board.is_check();
captureCount is the number of legal capture moves; attackedCount is the number
of squares holding an enemy piece attacked by the side to move; white and
black are the piece counts of the two sides. -/
structure BoardFacts where
  isCheck : Bool
  captureCount : Nat
  attackedCount : Nat
  white : PieceCounts
  black : PieceCounts
  deriving DecidableEq, Repr

/-- Embedding of _calculate_tactical_density. -/
def calculateTacticalDensity (b : BoardFacts) : Nat :=
  (if b.isCheck then 10 else 0) + min (b.captureCount * 2) 10 + min b.attackedCount 10

/-- Embedding of _calculate_evaluation_volatility.  The recent_history
argument is accepted and unused exactly as in the source; the thresholds of
the source are the strict comparisons cp > 200, cp > 100, cp > 50 on the
absolute centipawn value of the "cp" entry, and the score is 0 when the
evaluation has no "cp" key. -/
def calculateEvaluationVolatility (evaluation : EvalDict) (recentHistory : List String) : Nat :=
  let _ := recentHistory
  match evaluation.cp with
  | none => 0
  | some cp =>
      if cp.natAbs > 200 then 25
      else if cp.natAbs > 100 then 15
      else if cp.natAbs > 50 then 10
      else 0

/-- Facts about one replayed move read by _calculate_structural_changes: the
moved piece was a pawn, the move was a capture, a castling move, or a king
move (castling counts as a king move as well, as in the source, where the
moved piece of a castling move is the king). -/
structure MoveFacts where
  isPawnMove : Bool
  isCapture : Bool
  isCastling : Bool
  isKingMove : Bool
  deriving DecidableEq, Repr

/-- Embedding of _calculate_structural_changes on the exception-free path:
the last two history entries are replayed and scored 5 per pawn move, 8 per
capture, 7 per castle, 5 per king move, capped at 20; fewer than two entries
score 0. -/
def calculateStructuralChanges (recentHistory : List MoveFacts) : Nat :=
  if recentHistory.length < 2 then 0
  else
    let lastTwo := recentHistory.drop (recentHistory.length - 2)
    let score := lastTwo.foldl
      (fun acc m =>
        acc + (if m.isPawnMove then 5 else 0) + (if m.isCapture then 8 else 0)
            + (if m.isCastling then 7 else 0) + (if m.isKingMove then 5 else 0))
      0
    min score 20

/-- Embedding of _calculate_material_imbalance. -/
def calculateMaterialImbalance (b : BoardFacts) : Nat :=
  let imbalance := (Int.ofNat b.white.material - Int.ofNat b.black.material).natAbs
  if imbalance ≥ 3 then 15
  else if imbalance = 2 then 12
  else if imbalance = 1 then 8
  else 0

/-- Embedding of _detect_phase_transition: move_count is the length of the
recent history, pieces counts the non-pawn non-king pieces of both sides, and
queens counts the queens of both sides. -/
def detectPhaseTransition (b : BoardFacts) (recentHistory : List MoveFacts) : Nat :=
  let moveCount := recentHistory.length
  let pieces := b.white.knights + b.white.bishops + b.white.rooks + b.white.queens
              + b.black.knights + b.black.bishops + b.black.rooks + b.black.queens
  let queens := b.white.queens + b.black.queens
  if 12 ≤ moveCount ∧ moveCount ≤ 18 then 10
  else if moveCount > 20 ∧ (pieces ≤ 8 ∨ queens = 0) then 10
  else 0

/-- Embedding of calculate_position_interest.  An absent or empty recent
history is the empty list (None and the empty list are both falsy in the
source guards), and an absent or empty evaluation dict is none.  The history
entries carry the per-move facts used by the structural sub-score; the
volatility helper of the source receives the history only to ignore it, so it
is applied here to the empty string list. -/
def calculatePositionInterest (b : BoardFacts) (evaluation : Option EvalDict)
    (recentHistory : List MoveFacts) : Nat :=
  let tactical := calculateTacticalDensity b
  let volatility :=
    match evaluation with
    | some e => if recentHistory ≠ [] then calculateEvaluationVolatility e [] else 0
    | none => 0
  let structural := if recentHistory ≠ [] then calculateStructuralChanges recentHistory else 0
  let material := calculateMaterialImbalance b
  let phase := if recentHistory ≠ [] then detectPhaseTransition b recentHistory else 0
  min (tactical + volatility + structural + material + phase) 100

/-! ## Move quality classification
Embedded from StockfishEvaluator.evaluate_move, lines 197 to 225.  The
centipawn loss is the absolute difference between the evaluation before the
move and the negation of the evaluation after it; both evaluations are
integer centipawn values (mate scores are mapped to plus or minus 10000
upstream), so the loss is a natural number. -/

/-- Quality categorisation of evaluate_move as a function of the centipawn loss. -/
def classifyMoveQuality (centipawnLoss : Nat) : String :=
  if centipawnLoss > 300 then "blunder"
  else if centipawnLoss > 100 then "mistake"
  else if centipawnLoss > 50 then "inaccuracy"
  else if centipawnLoss < 10 then "excellent"
  else "good"

/-- Centipawn loss computed by evaluate_move from the two position evaluations. -/
def centipawnLossOf (evalBefore evalAfter : Int) : Nat :=
  (evalBefore - (-evalAfter)).natAbs

/-- Quality field of the evaluate_move result on the exception-free path with
both evaluations present. -/
def evaluateMoveQuality (evalBefore evalAfter : Int) : String :=
  classifyMoveQuality (centipawnLossOf evalBefore evalAfter)

/-! ## Response parsing
Embedded from ChessAgentManager._extract_move.  The regular-expression
operations of the source are realised directly over character lists.  All
needles searched for are UCI move strings, whose characters are word
characters, so the word-boundary assertions of the source reduce to the
neighbouring characters not being word characters. -/

/-- Word character of the regular expressions of the source (the inputs are
ASCII, where the Python \w class is a letter, a digit or the underscore). -/
def isWordChar (c : Char) : Bool :=
  c.isAlphanum || c = '_'

/-- Backtick character, used by the code-block wrapper pattern. -/
def backtickChar : Char := Char.ofNat 96

/-- Prefix test on character lists. -/
def listStartsWith : List Char → List Char → Bool
  | [], _ => true
  | _ :: _, [] => false
  | a :: as, b :: bs => a = b && listStartsWith as bs

/-- Removal of the code tags matched by the pattern for an optional slash
between a less-than sign and the word code: the scan removes each occurrence
of an opening or closing code tag, left to right, exactly as re.sub does.
The fuel argument makes the recursion structural; every recursive call
shortens the list, so fuel equal to the list length never runs out. -/
def removeCodeTagsAux : Nat → List Char → List Char
  | 0, l => l
  | _ + 1, [] => []
  | fuel + 1, c :: rest =>
      if listStartsWith "</code>".data (c :: rest) then
        removeCodeTagsAux fuel ((c :: rest).drop 7)
      else if listStartsWith "<code>".data (c :: rest) then
        removeCodeTagsAux fuel ((c :: rest).drop 6)
      else
        c :: removeCodeTagsAux fuel rest

/-- Code-tag removal at full fuel. -/
def removeCodeTags (l : List Char) : List Char :=
  removeCodeTagsAux l.length l

/-- Longest word-character prefix length, used by the greedy star of the
code-block pattern. -/
def wordPrefixLength : List Char → Nat
  | [] => 0
  | c :: rest => if isWordChar c then wordPrefixLength rest + 1 else 0

/-- Removal of markdown code fences: each occurrence of three backticks
followed greedily by word characters and an optional newline is deleted,
left to right, exactly as re.sub does with the fence pattern.  The fuel
argument makes the recursion structural; every recursive call shortens the
list, so fuel equal to the list length never runs out. -/
def removeCodeFencesAux : Nat → List Char → List Char
  | 0, l => l
  | _ + 1, [] => []
  | fuel + 1, c :: rest =>
      if listStartsWith [backtickChar, backtickChar, backtickChar] (c :: rest) then
        match (rest.drop 2).drop (wordPrefixLength (rest.drop 2)) with
        | [] => []
        | '\n' :: tail => removeCodeFencesAux fuel tail
        | d :: tail => removeCodeFencesAux fuel (d :: tail)
      else
        c :: removeCodeFencesAux fuel rest

/-- Code-fence removal at full fuel. -/
def removeCodeFences (l : List Char) : List Char :=
  removeCodeFencesAux l.length l

/-- Skip to the next newline, keeping the newline itself (the dot of the
thoughts pattern does not match a newline and the lookahead leaves the
newline in place). -/
def dropUntilNewline : List Char → List Char
  | [] => []
  | '\n' :: rest => '\n' :: rest
  | _ :: rest => dropUntilNewline rest

/-- Removal of a thoughts prefix: each occurrence of the literal text
thoughts followed by a colon is deleted together with the remainder of its
line, exactly as re.sub does with the lazy dot pattern and the
newline-or-end lookahead (the input is already lower-cased, matching the
ignore-case flag of the source).  The fuel argument makes the recursion
structural; every recursive call shortens the list, so fuel equal to the
list length never runs out. -/
def removeThoughtsLinesAux : Nat → List Char → List Char
  | 0, l => l
  | _ + 1, [] => []
  | fuel + 1, c :: rest =>
      if listStartsWith "thoughts:".data (c :: rest) then
        removeThoughtsLinesAux fuel (dropUntilNewline ((c :: rest).drop 9))
      else
        c :: removeThoughtsLinesAux fuel rest

/-- Thoughts-line removal at full fuel. -/
def removeThoughtsLines (l : List Char) : List Char :=
  removeThoughtsLinesAux l.length l

/-- Whitespace stripped by the Python strip method on the ASCII inputs of the
embedding. -/
def isStripChar (c : Char) : Bool :=
  c = ' ' || c = '\t' || c = '\n' || c = '\r'

/-- Embedding of the Python strip method: leading and trailing whitespace
removed. -/
def pyStrip (l : List Char) : List Char :=
  ((l.dropWhile isStripChar).reverse.dropWhile isStripChar).reverse

/-- Embedding of the Python lower method on the ASCII inputs of the
embedding: upper-case letters mapped to lower case. -/
def pyLowerChar (c : Char) : Char :=
  if 'A' ≤ c ∧ c ≤ 'Z' then Char.ofNat (c.toNat + 32) else c

/-- Lower-casing of a character list. -/
def pyLower (l : List Char) : List Char :=
  l.map pyLowerChar

/-- Cleanup pipeline of _extract_move: strip, lower-case, then remove code
tags, code fences and thoughts lines, in the source order. -/
def cleanResponse (result : String) : List Char :=
  removeThoughtsLines (removeCodeFences (removeCodeTags (pyLower (pyStrip result.data))))

/-- Word-boundary test against the character preceding the current position:
at the start of the text the boundary holds, otherwise the previous character
must not be a word character (all needles begin with a word character). -/
def boundaryBefore : Option Char → Bool
  | none => true
  | some c => !isWordChar c

/-- Word-boundary test against the first character following a match: at the
end of the text the boundary holds, otherwise the next character must not be
a word character (all needles end with a word character). -/
def boundaryAfter : List Char → Bool
  | [] => true
  | c :: _ => !isWordChar c

/-- Search for a word-bounded occurrence of the needle, scanning left to
right; prev is the character immediately before the current position. -/
def searchWordFrom (needle : List Char) : Option Char → List Char → Bool
  | prev, [] =>
      boundaryBefore prev && listStartsWith needle [] && boundaryAfter []
  | prev, c :: rest =>
      (boundaryBefore prev && listStartsWith needle (c :: rest)
        && boundaryAfter ((c :: rest).drop needle.length))
      || searchWordFrom needle (some c) rest

/-- Word-bounded occurrence of a needle in a text, the embedding of
re.search with escaped needle between two word-boundary assertions. -/
def wordBoundedOccurs (needle text : List Char) : Bool :=
  searchWordFrom needle none text

/-- File letter of a coordinate move. -/
def isFileChar (c : Char) : Bool :=
  'a' ≤ c && c ≤ 'h'

/-- Rank digit of a coordinate move. -/
def isRankChar (c : Char) : Bool :=
  '1' ≤ c && c ≤ '8'

/-- Promotion letter of a coordinate move. -/
def isPromoChar (c : Char) : Bool :=
  c = 'q' || c = 'r' || c = 'b' || c = 'n'

/-- Attempt to match the coordinate-move pattern at the current position,
including the word-boundary assertions on both sides and the backtracking of
the optional promotion letter: the result is the matched characters and the
remaining text.  A four-character match whose next character is a promotion
letter fails the trailing boundary after backtracking, because promotion
letters are word characters, exactly as in the source pattern. -/
def coordMatchHere (prev : Option Char) : List Char → Option (List Char × List Char)
  | a :: r1 :: b :: r2 :: rest =>
      if boundaryBefore prev && isFileChar a && isRankChar r1
          && isFileChar b && isRankChar r2 then
        match rest with
        | [] => some ([a, r1, b, r2], [])
        | p :: rest2 =>
            if isPromoChar p then
              if boundaryAfter rest2 then some ([a, r1, b, r2, p], rest2)
              else none
            else if !isWordChar p then some ([a, r1, b, r2], p :: rest2)
            else none
      else none
  | _ => none

/-- Left-to-right scan collecting the non-overlapping coordinate-move matches
of re.findall; the fuel argument bounds the recursion by the text length and
never runs out when initialised to it. -/
def findCoordMatchesAux : Nat → Option Char → List Char → List (List Char)
  | 0, _, _ => []
  | _ + 1, _, [] => []
  | fuel + 1, prev, c :: rest =>
      match coordMatchHere prev (c :: rest) with
      | some (m, remaining) =>
          m :: findCoordMatchesAux fuel ((m.getLast?).getD c) remaining
      | none => findCoordMatchesAux fuel (some c) rest

/-- All coordinate-move matches of the text, in text order. -/
def findCoordMatches (text : List Char) : List (List Char) :=
  findCoordMatchesAux text.length none text

/-- Embedding of ChessAgentManager._extract_move: after the cleanup pipeline,
the first legal move occurring word-bounded in the text is returned; failing
that, the first coordinate-move match belonging to the legal-move list is
returned; failing that, none.  A returned Python empty string would be falsy
at the call sites, but every move string has at least four characters, so an
Option models the result faithfully. -/
def extractMove (result : String) (legalMoves : List String) : Option String :=
  let text := cleanResponse result
  match legalMoves.find? (fun m => wordBoundedOccurs (pyLower m.data) text) with
  | some m => some m
  | none =>
      ((findCoordMatches text).map String.mk).find? (fun s => s ∈ legalMoves)

/-! ## Agent configuration and retry loops
Embedded from agent_manager.py and hybrid_agent_selector.py.  One invocation
of agent.run is an element of a stream of collaborator outcomes: none stands
for a raised exception, some text for a returned response. -/

/-- Configuration fields of AgentConfig read by the selector, with the source
defaults. -/
structure AgentConfig where
  personality : String := "balanced"
  max_retries : Nat := 3
  deriving DecidableEq, Repr

/-- One iteration body of the retry loop of
HybridAgentMoveSelector._get_hybrid_agent_move: the agent is invoked once; an
exception, an unparsable response or an extracted move outside the candidate
list yields nothing. -/
def hybridAttemptResult (run : Nat → Option String) (candidateMoves : List String)
    (i : Nat) : Option String :=
  match run i with
  | none => none
  | some text =>
      match extractMove text candidateMoves with
      | some m => if m ∈ candidateMoves then some m else none
      | none => none

/-- Retry loop of _get_hybrid_agent_move: iterations run until an attempt
succeeds or the budget is exhausted.  The result pairs the accepted move,
when any, with the number of agent invocations performed. -/
def hybridRetryLoop (run : Nat → Option String) (candidateMoves : List String) :
    Nat → Nat → Option String × Nat
  | _, 0 => (none, 0)
  | i, k + 1 =>
      match hybridAttemptResult run candidateMoves i with
      | some m => (some m, 1)
      | none =>
          ((hybridRetryLoop run candidateMoves (i + 1) k).1,
           (hybridRetryLoop run candidateMoves (i + 1) k).2 + 1)

/-- Stockfish candidate: move in UCI, signed centipawn score, principal
variation. -/
structure Candidate where
  uci : String
  score : Int
  pv : List String
  deriving DecidableEq, Repr

/-- Embedding of HybridAgentMoveSelector._get_hybrid_agent_move.  A missing
agent raises a ValueError and a missing configuration raises an
AttributeError before the loop; otherwise the loop runs for max_retries
iterations and, when every attempt fails, the first candidate is returned;
an empty candidate list then raises an IndexError.  The prompt built by
_build_hybrid_agent_prompt is pure string assembly from the candidates and
does not affect which answer is accepted, so it is absorbed into the
invocation-outcome stream. -/
def getHybridAgentMove (agentExists : Bool) (config : Option AgentConfig)
    (run : Nat → Option String) (candidates : List Candidate) : Except String String :=
  if !agentExists then Except.error "agent not found"
  else
    match config with
    | none => Except.error "config missing"
    | some cfg =>
        let candidateMoves := candidates.map (fun c => c.uci)
        match (hybridRetryLoop run candidateMoves 0 cfg.max_retries).1 with
        | some m => Except.ok m
        | none =>
            match candidates with
            | [] => Except.error "no candidates"
            | c :: _ => Except.ok c.uci

/-- Number of agent invocations performed by _get_hybrid_agent_move. -/
def hybridAgentInvocations (agentExists : Bool) (config : Option AgentConfig)
    (run : Nat → Option String) (candidates : List Candidate) : Nat :=
  if !agentExists then 0
  else
    match config with
    | none => 0
    | some cfg =>
        (hybridRetryLoop run (candidates.map (fun c => c.uci)) 0 cfg.max_retries).2

/-- One iteration body of the retry loop of ChessAgentManager.get_agent_move:
as the hybrid attempt, but a truthy extracted move is accepted without the
redundant membership test. -/
def fallbackAttemptResult (run : Nat → Option String) (legalMoves : List String)
    (i : Nat) : Option String :=
  match run i with
  | none => none
  | some text => extractMove text legalMoves

/-- Retry loop of get_agent_move, pairing the accepted move, when any, with
the number of agent invocations performed. -/
def fallbackRetryLoop (run : Nat → Option String) (legalMoves : List String) :
    Nat → Nat → Option String × Nat
  | _, 0 => (none, 0)
  | i, k + 1 =>
      match fallbackAttemptResult run legalMoves i with
      | some m => (some m, 1)
      | none =>
          ((fallbackRetryLoop run legalMoves (i + 1) k).1,
           (fallbackRetryLoop run legalMoves (i + 1) k).2 + 1)

/-- Embedding of ChessAgentManager.get_agent_move as called from
_get_llm_fallback_move: a missing agent or missing configuration raises, the
loop consumes agent invocations starting at the given stream offset, and
exhaustion of the retries raises a ValueError instead of falling back.  The
second component is the number of invocations used. -/
def getAgentMove (agentExists : Bool) (config : Option AgentConfig)
    (run : Nat → Option String) (legalMoves : List String) (offset : Nat) :
    Except String String × Nat :=
  if !agentExists then (Except.error "agent not found", 0)
  else
    match config with
    | none => (Except.error "config missing", 0)
    | some cfg =>
        let res := fallbackRetryLoop (fun i => run (offset + i)) legalMoves 0 cfg.max_retries
        match res.1 with
        | some m => (Except.ok m, res.2)
        | none => (Except.error "failed to generate valid move", res.2)

/-! ## Opening book selection
Embedded from opening_book_client.py.  The statistics arithmetic of the
source runs over Python floats; it is modelled over the rationals, on which
the scores of the embedded scenario are computed exactly and ordered as the
source orders them. -/

/-- Opening move statistics of the OpeningMove dataclass. -/
structure OpeningMove where
  uci : String
  san : String
  white_wins : Nat
  draws : Nat
  black_wins : Nat
  average_rating : Nat
  deriving DecidableEq, Repr

/-- Total number of games with this move. -/
def OpeningMove.total_games (m : OpeningMove) : Nat :=
  m.white_wins + m.draws + m.black_wins

/-- Fraction of games ending in draws, zero when there are no games. -/
def OpeningMove.draw_rate (m : OpeningMove) : ℚ :=
  if m.total_games = 0 then 0 else (m.draws : ℚ) / (m.total_games : ℚ)

/-- Stable insertion into a list sorted in descending key order: the inserted
element precedes the first strictly smaller key and follows equal keys, which
is the ordering produced by the stable descending sort of the source. -/
def insertDescBy (key : OpeningMove → ℚ) (x : OpeningMove) :
    List OpeningMove → List OpeningMove
  | [] => [x]
  | y :: ys => if key x < key y then y :: insertDescBy key x ys else x :: y :: ys

/-- Stable descending sort by a rational key. -/
def sortDescBy (key : OpeningMove → ℚ) : List OpeningMove → List OpeningMove
  | [] => []
  | x :: xs => insertDescBy key x (sortDescBy key xs)

/-- Aggressive-personality score: games times one half plus draw rate times
one thousand. -/
def aggressiveScore (m : OpeningMove) : ℚ :=
  (m.total_games : ℚ) * (1 / 2) + m.draw_rate * 1000

/-- Defensive-personality score: games times one half plus one minus the draw
rate, times one thousand. -/
def defensiveScore (m : OpeningMove) : ℚ :=
  (m.total_games : ℚ) * (1 / 2) + (1 - m.draw_rate) * 1000

/-- Embedding of OpeningBookClient.select_opening_move: a personality-specific
score ranks the moves, the top three form the shortlist, and its head is
selected.  The is_white argument is accepted and unused exactly as in the
source. -/
def selectOpeningMove (openingMoves : List OpeningMove) (personality : String)
    (isWhite : Bool) : Option String :=
  let _ := isWhite
  if openingMoves = [] then none
  else
    let candidates :=
      if personality = "aggressive" then
        (sortDescBy aggressiveScore openingMoves).take 3
      else if personality = "defensive" then
        (sortDescBy defensiveScore openingMoves).take 3
      else
        (sortDescBy (fun m => (m.total_games : ℚ)) openingMoves).take 3
    match candidates with
    | [] => none
    | selected :: _ => some selected.uci

/-! ## Tablebase predicates
Embedded from tablebase_client.py. -/

/-- Result of TablebaseClient.query_position. -/
structure TablebaseResult where
  uci : String
  wdl : Option Int
  dtz : Option Int
  category : String
  deriving DecidableEq, Repr

/-- Embedding of TablebaseClient.is_winning. -/
def isWinning (wdl : Option Int) : Bool :=
  match wdl with
  | none => false
  | some w => w ≥ 1

/-- Embedding of TablebaseClient.is_drawing. -/
def isDrawing (wdl : Option Int) : Bool :=
  match wdl with
  | none => false
  | some w => w = 0

/-- Embedding of TablebaseClient.is_losing. -/
def isLosing (wdl : Option Int) : Bool :=
  match wdl with
  | none => false
  | some w => w ≤ -1

/-! ## The fallback chain
Embedded from HybridAgentMoveSelector.get_move.  The board is abstracted to
its FEN, its legal-move list in UCI and its side to move; a UCI string parses
in chess.Move.from_uci and is legal on the board exactly when it belongs to
the legal-move list, so the caught ValueError of an unparsable string and the
failed membership test both fall through in the embedding as in the source. -/

/-- Board facts read by get_move. -/
structure Board where
  fen : String
  legalMoves : List String
  whiteToMove : Bool
  deriving DecidableEq, Repr

/-- Collaborator outcomes and inputs of one get_move call.  A none client is
a selector constructed without that client; an error query outcome is an
exception raised by the collaborator and caught by the tier; hybridRun and
fallbackRun are the agent invocation outcomes consumed by the hybrid tier and
by the pure-fallback tier. -/
structure GetMoveEnv where
  board : Board
  gameHistory : List String
  agentExists : Bool
  agentConfig : Option AgentConfig
  bookClient : Option (Except Unit (Option (List OpeningMove)))
  tbClient : Option (Except Unit (Option TablebaseResult))
  evalAvailable : Bool
  topMoves : Except Unit (List Candidate)
  hybridRun : Nat → Option String
  fallbackRun : Nat → Option String

/-- Book tier of get_move: applicable while the move number is at most 15 and
a book client is present; a query exception, an empty or missing result, a
failed selection, an unparsable UCI string and an illegal move all fall
through. -/
def bookTierResult (e : GetMoveEnv) : Option String :=
  let moveNumber := e.gameHistory.length + 1
  match e.bookClient with
  | none => none
  | some query =>
      if moveNumber ≤ 15 then
        match query with
        | Except.error _ => none
        | Except.ok none => none
        | Except.ok (some openingMoves) =>
            if openingMoves = [] then none
            else
              let personality :=
                match e.agentConfig with
                | some cfg => cfg.personality
                | none => "balanced"
              match selectOpeningMove openingMoves personality e.board.whiteToMove with
              | none => none
              | some uci => if uci ∈ e.board.legalMoves then some uci else none
      else none

/-- Tablebase tier of get_move: a query exception or a missing result falls
through; a returned move is accepted only when it is legal and its WDL value
is winning or drawing for the side to move. -/
def tbTierResult (e : GetMoveEnv) : Option String :=
  match e.tbClient with
  | none => none
  | some query =>
      match query with
      | Except.error _ => none
      | Except.ok none => none
      | Except.ok (some r) =>
          if r.uci ∈ e.board.legalMoves then
            if isWinning r.wdl || isDrawing r.wdl then some r.uci else none
          else none

/-- Pure-fallback tier: _get_llm_fallback_move builds the legal-move list and
delegates to get_agent_move, which can raise; the offset selects where in the
fallback invocation stream this call starts. -/
def llmFallbackMove (e : GetMoveEnv) (offset : Nat) : Except String String × Nat :=
  getAgentMove e.agentExists e.agentConfig e.fallbackRun e.board.legalMoves offset

/-- Embedding of HybridAgentMoveSelector.get_move.  The tiers run in the
source order; after the tablebase tier, an unavailable evaluator goes to the
pure fallback directly (outside any handler, so a raised error propagates);
otherwise the candidate query, the empty-candidate test and the hybrid agent
call run inside the try block whose handler calls the pure fallback once
more, so a fallback error raised inside the try block is caught and a second
fallback call is made further along the invocation stream. -/
def getMove (e : GetMoveEnv) : Except Unit (String × String) :=
  match bookTierResult e with
  | some uci => Except.ok (uci, "opening_book")
  | none =>
  match tbTierResult e with
  | some uci => Except.ok (uci, "tablebase")
  | none =>
  if !e.evalAvailable then
    match (llmFallbackMove e 0).1 with
    | Except.ok m => Except.ok (m, "llm-fallback")
    | Except.error _ => Except.error ()
  else
    match e.topMoves with
    | Except.error _ =>
        match (llmFallbackMove e 0).1 with
        | Except.ok m => Except.ok (m, "llm-fallback")
        | Except.error _ => Except.error ()
    | Except.ok candidates =>
        if candidates = [] then
          match llmFallbackMove e 0 with
          | (Except.ok m, _) => Except.ok (m, "llm-fallback")
          | (Except.error _, used) =>
              match (llmFallbackMove e used).1 with
              | Except.ok m => Except.ok (m, "llm-fallback")
              | Except.error _ => Except.error ()
        else
          match getHybridAgentMove e.agentExists e.agentConfig e.hybridRun candidates with
          | Except.ok m => Except.ok (m, "hybrid")
          | Except.error _ =>
              match (llmFallbackMove e 0).1 with
              | Except.ok m => Except.ok (m, "llm-fallback")
              | Except.error _ => Except.error ()

/-! ## Concrete inputs used in the claim instances -/

/-- Five-candidate book scenario of the specification: draw rates 0.6, 0.5,
0.4, 0.3, 0.2 and game counts 100, 90, 80, 10, 5. -/
def bookScenarioMoves : List OpeningMove :=
  [⟨"e2e4", "e4", 20, 60, 20, 2450⟩,
   ⟨"d2d4", "d4", 25, 45, 20, 2440⟩,
   ⟨"g1f3", "Nf3", 24, 32, 24, 2430⟩,
   ⟨"c2c4", "c4", 4, 3, 3, 2420⟩,
   ⟨"b1c3", "Nc3", 2, 1, 2, 2410⟩]

/-- Selector call in which the evaluation collaborator returns a candidate
move that is not legal on the board: the agent echoes it and the hybrid tier
returns it without a legality check. -/
def c1CEnv : GetMoveEnv where
  board := ⟨"8/8/8/8/8/8/8/8 w - - 0 1", ["e2e4"], true⟩
  gameHistory := []
  agentExists := true
  agentConfig := some {}
  bookClient := none
  tbClient := none
  evalAvailable := true
  topMoves := Except.ok [⟨"a1a2", 10, []⟩]
  hybridRun := fun _ => some "a1a2"
  fallbackRun := fun _ => none

/-- Selector call with legal evaluation candidates, used to instantiate the
legality theorem. -/
def c1WEnv : GetMoveEnv where
  board := ⟨"8/8/8/8/8/8/8/8 w - - 0 1", ["e2e4", "d2d4"], true⟩
  gameHistory := []
  agentExists := true
  agentConfig := some {}
  bookClient := none
  tbClient := none
  evalAvailable := true
  topMoves := Except.ok [⟨"e2e4", 30, []⟩]
  hybridRun := fun _ => some "e2e4"
  fallbackRun := fun _ => none

/-- Selector call in which the evaluator reports itself available but its
candidate query returns an empty list, so the move comes from the pure
fallback although the evaluation source is available. -/
def c2CEnv : GetMoveEnv where
  board := ⟨"8/8/8/8/8/8/8/8 w - - 0 1", ["e2e4"], true⟩
  gameHistory := []
  agentExists := true
  agentConfig := some {}
  bookClient := none
  tbClient := none
  evalAvailable := true
  topMoves := Except.ok []
  hybridRun := fun _ => none
  fallbackRun := fun _ => some "e2e4"

/-- Selector call with the evaluation source available and a usable candidate
list, used to instantiate the precedence theorem. -/
def c2WEnv : GetMoveEnv where
  board := ⟨"8/8/8/8/8/8/8/8 w - - 0 1", ["e2e4"], true⟩
  gameHistory := []
  agentExists := true
  agentConfig := some {}
  bookClient := none
  tbClient := none
  evalAvailable := true
  topMoves := Except.ok [⟨"e2e4", 30, []⟩]
  hybridRun := fun _ => some "e2e4"
  fallbackRun := fun _ => none

/-- Selector call with the evaluation source unavailable, used to instantiate
the precedence theorem. -/
def c2FEnv : GetMoveEnv where
  board := ⟨"8/8/8/8/8/8/8/8 w - - 0 1", ["e2e4"], true⟩
  gameHistory := []
  agentExists := true
  agentConfig := some {}
  bookClient := none
  tbClient := none
  evalAvailable := false
  topMoves := Except.ok []
  hybridRun := fun _ => none
  fallbackRun := fun _ => some "e2e4"

/-- Tablebase WDL value of a lost position in the instantiated scenario. -/
def c3LossResult : TablebaseResult :=
  ⟨"a1a2", some (-2), some 5, "loss"⟩

/-- Selector call in which the tablebase returns a legal best move classified
as a loss for the side to move: the move must not be played from the
tablebase tier. -/
def c3Env : GetMoveEnv where
  board := ⟨"8/8/8/8/8/8/8/8 w - - 0 1", ["a1a2", "e2e4"], true⟩
  gameHistory := []
  agentExists := true
  agentConfig := some {}
  bookClient := none
  tbClient := some (Except.ok (some c3LossResult))
  evalAvailable := true
  topMoves := Except.ok [⟨"e2e4", 100, []⟩]
  hybridRun := fun _ => some "e2e4"
  fallbackRun := fun _ => none

/-! ## Specification-side descriptions of the parsing rule
Two renderings of the parsing rule are stated for comparison with the
embedded _extract_move.  The rule as the specification and claim word it
(extractMoveClaim) uses the plain coordinate-move pattern for the fallback
phase, with no word-boundary assertions; the source pattern anchors the
coordinate move between two word boundaries, and extractMoveSpec renders
that amended rule. -/

/-- First candidate move string occurring as an exact, word-bounded substring
of the (cleaned) response text, in candidate order.  Both renderings share
this first phase, which the specification states as word-bounded. -/
def firstWordBoundedCandidate (text : List Char) (candidates : List String) : Option String :=
  candidates.find? (fun m => wordBoundedOccurs (pyLower m.data) text)

/-- First match of the coordinate-move pattern of the SOURCE, which carries a
word-boundary assertion on each side, that is a member of the candidate set,
in text order. -/
def firstCoordMatchInSet (text : List Char) (candidates : List String) : Option String :=
  ((findCoordMatches text).map String.mk).find? (fun s => s ∈ candidates)

/-- Attempt to match the plain coordinate-move pattern of the specification
at the current position: four coordinate characters and a greedily taken
optional promotion letter, with no boundary assertions. -/
def plainCoordMatchHere : List Char → Option (List Char × List Char)
  | a :: r1 :: b :: r2 :: rest =>
      if isFileChar a && isRankChar r1 && isFileChar b && isRankChar r2 then
        match rest with
        | [] => some ([a, r1, b, r2], [])
        | p :: rest2 =>
            if isPromoChar p then some ([a, r1, b, r2, p], rest2)
            else some ([a, r1, b, r2], p :: rest2)
      else none
  | _ => none

/-- Left-to-right scan collecting the non-overlapping matches of the plain
coordinate-move pattern, as re.findall would with no boundary assertions;
fuel equal to the text length never runs out. -/
def plainCoordMatchesAux : Nat → List Char → List (List Char)
  | 0, _ => []
  | _ + 1, [] => []
  | fuel + 1, c :: rest =>
      match plainCoordMatchHere (c :: rest) with
      | some (m, remaining) => m :: plainCoordMatchesAux fuel remaining
      | none => plainCoordMatchesAux fuel rest

/-- All plain coordinate-move matches of the text, in text order. -/
def plainCoordMatches (text : List Char) : List (List Char) :=
  plainCoordMatchesAux text.length text

/-- First match of the plain coordinate-move pattern that is a member of the
candidate set, in text order. -/
def firstPlainCoordMatchInSet (text : List Char) (candidates : List String) : Option String :=
  ((plainCoordMatches text).map String.mk).find? (fun s => s ∈ candidates)

/-- Parsing rule exactly as the specification and the claim word it: strip
wrappers, then the first word-bounded candidate occurrence, then the first
in-set match of the PLAIN coordinate-move pattern, then no move. -/
def extractMoveClaim (result : String) (candidates : List String) : Option String :=
  let text := cleanResponse result
  match firstWordBoundedCandidate text candidates with
  | some m => some m
  | none => firstPlainCoordMatchInSet text candidates

/-- Amended parsing rule: as the specification words it except that the
fallback coordinate-move pattern is anchored between word boundaries, as in
the source pattern. -/
def extractMoveSpec (result : String) (candidates : List String) : Option String :=
  let text := cleanResponse result
  match firstWordBoundedCandidate text candidates with
  | some m => some m
  | none => firstCoordMatchInSet text candidates

/-! ## Helper lemmas -/

theorem mem_of_extractMove {r : String} {cands : List String} {m : String}
    (h : extractMove r cands = some m) : m ∈ cands := by
  unfold extractMove at h
  dsimp only at h
  split at h
  · next x hfind =>
      cases h
      exact List.mem_of_find?_eq_some hfind
  · next hfind =>
      have hp := List.find?_some h
      simpa using hp

theorem hybridAttemptResult_mem {run : Nat → Option String} {cands : List String}
    {i : Nat} {m : String} (h : hybridAttemptResult run cands i = some m) : m ∈ cands := by
  unfold hybridAttemptResult at h
  split at h
  · cases h
  · split at h
    · split at h
      · cases h; assumption
      · cases h
    · cases h

theorem fallbackAttemptResult_mem {run : Nat → Option String} {legal : List String}
    {i : Nat} {m : String} (h : fallbackAttemptResult run legal i = some m) : m ∈ legal := by
  unfold fallbackAttemptResult at h
  split at h
  · cases h
  · exact mem_of_extractMove h

theorem hybridRetryLoop_mem {run : Nat → Option String} {cands : List String}
    {m : String} :
    ∀ {k i : Nat}, (hybridRetryLoop run cands i k).1 = some m → m ∈ cands := by
  intro k
  induction k with
  | zero => intro i h; simp [hybridRetryLoop] at h
  | succ k ih =>
      intro i h
      rw [hybridRetryLoop] at h
      split at h
      · next hstep =>
          cases h
          exact hybridAttemptResult_mem hstep
      · exact ih h

theorem fallbackRetryLoop_mem {run : Nat → Option String} {legal : List String}
    {m : String} :
    ∀ {k i : Nat}, (fallbackRetryLoop run legal i k).1 = some m → m ∈ legal := by
  intro k
  induction k with
  | zero => intro i h; simp [fallbackRetryLoop] at h
  | succ k ih =>
      intro i h
      rw [fallbackRetryLoop] at h
      split at h
      · next hstep =>
          cases h
          exact fallbackAttemptResult_mem hstep
      · exact ih h

theorem getAgentMove_ok_mem {ae : Bool} {cfg : Option AgentConfig}
    {run : Nat → Option String} {legal : List String} {off : Nat} {m : String}
    (h : (getAgentMove ae cfg run legal off).1 = Except.ok m) : m ∈ legal := by
  unfold getAgentMove at h
  split at h
  · cases h
  · split at h
    · cases h
    · dsimp only at h
      split at h
      · next hloop =>
          cases h
          exact fallbackRetryLoop_mem hloop
      · cases h

theorem getHybridAgentMove_ok_mem {ae : Bool} {cfg : Option AgentConfig}
    {run : Nat → Option String} {cands : List Candidate} {m : String}
    (h : getHybridAgentMove ae cfg run cands = Except.ok m) :
    m ∈ cands.map (fun c => c.uci) := by
  unfold getHybridAgentMove at h
  split at h
  · cases h
  · split at h
    · cases h
    · dsimp only at h
      split at h
      · next hloop =>
          cases h
          exact hybridRetryLoop_mem hloop
      · split at h
        · cases h
        · next c rest heq =>
            cases h
            simp [heq]

theorem bookTierResult_mem {e : GetMoveEnv} {m : String}
    (h : bookTierResult e = some m) : m ∈ e.board.legalMoves := by
  unfold bookTierResult at h
  dsimp only at h
  split at h
  · cases h
  · split at h
    · split at h
      · cases h
      · cases h
      · split at h
        · cases h
        · split at h
          · cases h
          · split at h
            · cases h; assumption
            · cases h
    · cases h

theorem tbTierResult_mem {e : GetMoveEnv} {m : String}
    (h : tbTierResult e = some m) : m ∈ e.board.legalMoves := by
  unfold tbTierResult at h
  split at h
  · cases h
  · split at h
    · cases h
    · cases h
    · split at h
      · split at h
        · cases h; assumption
        · cases h
      · cases h

/-! ## Claim C6 -/

/-- C6: for an admission-controller input with interest score 80 and an
evaluation change of 40 centipawns, the decision is the critical-moment one
with the rule-1 reason, for every value of the remaining inputs.  The
specification labels the rule-1 reason high_interest; the string literal of
the source for that rule is high_interest_score. -/
theorem c6_high_interest_first :
    ∀ (movesSinceLast : Int) (positionType : String) (justAfterTactical : Bool),
      shouldGenerateCommentary 80 movesSinceLast (some ⟨some 40⟩) positionType justAfterTactical
        = (CommentaryDecision.CRITICAL_MOMENT, "high_interest_score") := by
  intro movesSinceLast positionType justAfterTactical
  unfold shouldGenerateCommentary
  rw [if_pos (by norm_num)]

/-! ## Claim C7 -/

/-- C7 counterexample: a MoveComment decision for which the trigger detector
finds no trigger leaves last_commentary_move_number unchanged instead of
setting it to the current move number, refuting the claim that every non-Skip
decision sets the counter. -/
theorem c7_counterexample :
    updateLastCommentary CommentaryDecision.MOVE_COMMENT false true 5 0 = 0
      ∧ updateLastCommentary CommentaryDecision.MOVE_COMMENT false true 5 0 ≠ 5 := by
  decide

/-- C7 amended: Skip decisions always leave the counter unchanged, across any
sequence of steps; a StrategicOverview decision sets it to the current move
number exactly when the generator call succeeds; a MoveComment or
CriticalMoment decision sets it exactly when the trigger detector found a
trigger and the generator call succeeds; in every other case it is left
unchanged. -/
theorem c7_last_commentary_update :
    (∀ (tf gok : Bool) (n last : Int),
        updateLastCommentary CommentaryDecision.SKIP tf gok n last = last)
    ∧ (∀ (tf gok : Bool) (n last : Int),
        updateLastCommentary CommentaryDecision.STRATEGIC_OVERVIEW tf gok n last
          = if gok then n else last)
    ∧ (∀ (d : CommentaryDecision) (tf gok : Bool) (n last : Int),
        (d = CommentaryDecision.MOVE_COMMENT ∨ d = CommentaryDecision.CRITICAL_MOMENT) →
        updateLastCommentary d tf gok n last = if tf && gok then n else last)
    ∧ (∀ (steps : List CommentaryStep) (last : Int),
        (∀ s ∈ steps, s.decision = CommentaryDecision.SKIP) →
        runCommentarySteps steps last = last) := by
  refine ⟨fun _ _ _ _ => rfl, fun _ _ _ _ => rfl, ?_, ?_⟩
  · rintro d tf gok n last (rfl | rfl) <;> rfl
  · intro steps
    induction steps with
    | nil => intro last _; rfl
    | cons s rest ih =>
        intro last hall
        have hs : s.decision = CommentaryDecision.SKIP := hall s (by simp)
        have hrest : ∀ t ∈ rest, t.decision = CommentaryDecision.SKIP := by
          intro t ht
          exact hall t (by simp [ht])
        unfold runCommentarySteps
        simp only [List.foldl_cons]
        rw [hs]
        exact ih last hrest

/-- C7 witness: the amended characterisation applied to a skipped sequence
and to a MoveComment step without a found trigger. -/
theorem c7_witness :
    runCommentarySteps [⟨CommentaryDecision.SKIP, true, true, 3⟩,
        ⟨CommentaryDecision.SKIP, false, false, 9⟩] 2 = 2
      ∧ updateLastCommentary CommentaryDecision.CRITICAL_MOMENT true false 7 1
          = if true && false then 7 else 1 := by
  constructor
  · exact c7_last_commentary_update.2.2.2 _ 2 (by intro s hs; simp at hs; rcases hs with h | h <;> simp [h])
  · exact c7_last_commentary_update.2.2.1 CommentaryDecision.CRITICAL_MOMENT true false 7 1 (Or.inr rfl)

/-! ## Claim C8 -/

/-- C8 counterexample: at an absolute centipawn value of exactly 200 the
volatility sub-score of the source is 15, not the 25 the claim assigns to
values of at least 200, because the source compares with a strict greater
than. -/
theorem c8_counterexample :
    calculateEvaluationVolatility ⟨some 200⟩ [] = 15
      ∧ calculateEvaluationVolatility ⟨some 200⟩ [] ≠ 25 := by
  decide

/-- C8 amended: the volatility sub-score is 25 when the absolute centipawn
value is strictly greater than 200, 15 when strictly greater than 100, 10
when strictly greater than 50, and 0 otherwise (including a missing cp key);
it is added into the total interest score whenever an evaluation is supplied
together with a non-empty recent history. -/
theorem c8_volatility_thresholds :
    (∀ (ev : EvalDict) (hist : List String) (cp : Int), ev.cp = some cp →
        (cp.natAbs > 200 → calculateEvaluationVolatility ev hist = 25)
        ∧ (cp.natAbs ≤ 200 → cp.natAbs > 100 → calculateEvaluationVolatility ev hist = 15)
        ∧ (cp.natAbs ≤ 100 → cp.natAbs > 50 → calculateEvaluationVolatility ev hist = 10)
        ∧ (cp.natAbs ≤ 50 → calculateEvaluationVolatility ev hist = 0))
    ∧ (∀ (ev : EvalDict) (hist : List String), ev.cp = none →
        calculateEvaluationVolatility ev hist = 0)
    ∧ (∀ (b : BoardFacts) (ev : EvalDict) (hist : List MoveFacts), hist ≠ [] →
        calculatePositionInterest b (some ev) hist
          = min (calculateTacticalDensity b + calculateEvaluationVolatility ev []
                  + calculateStructuralChanges hist + calculateMaterialImbalance b
                  + detectPhaseTransition b hist) 100) := by
  refine ⟨?_, ?_, ?_⟩
  · intro ev hist cp hcp
    refine ⟨?_, ?_, ?_, ?_⟩ <;>
      · intros
        unfold calculateEvaluationVolatility
        rw [hcp]
        simp only []
        first
          | rw [if_pos (by omega)]
          | (rw [if_neg (by omega), if_pos (by omega)])
          | (rw [if_neg (by omega), if_neg (by omega), if_pos (by omega)])
          | (rw [if_neg (by omega), if_neg (by omega), if_neg (by omega)])
  · intro ev hist hcp
    unfold calculateEvaluationVolatility
    rw [hcp]
  · intro b ev hist hne
    unfold calculatePositionInterest
    simp [hne]

/-- C8 witness: the amended thresholds applied at the concrete values 250
(strictly above 200) and 200 (not strictly above 200), and the total with a
two-entry history. -/
theorem c8_witness :
    calculateEvaluationVolatility ⟨some 250⟩ [] = 25
      ∧ calculateEvaluationVolatility ⟨some 200⟩ ["e2e4"] = 15
      ∧ calculatePositionInterest ⟨false, 0, 0, ⟨0, 0, 0, 0, 0⟩, ⟨0, 0, 0, 0, 0⟩⟩
          (some ⟨some 250⟩) [⟨false, false, false, false⟩, ⟨false, false, false, false⟩]
          = min (calculateTacticalDensity ⟨false, 0, 0, ⟨0, 0, 0, 0, 0⟩, ⟨0, 0, 0, 0, 0⟩⟩
                  + calculateEvaluationVolatility ⟨some 250⟩ []
                  + calculateStructuralChanges
                      [⟨false, false, false, false⟩, ⟨false, false, false, false⟩]
                  + calculateMaterialImbalance ⟨false, 0, 0, ⟨0, 0, 0, 0, 0⟩, ⟨0, 0, 0, 0, 0⟩⟩
                  + detectPhaseTransition ⟨false, 0, 0, ⟨0, 0, 0, 0, 0⟩, ⟨0, 0, 0, 0, 0⟩⟩
                      [⟨false, false, false, false⟩, ⟨false, false, false, false⟩]) 100 := by
  refine ⟨?_, ?_, ?_⟩
  · exact ((c8_volatility_thresholds.1 ⟨some 250⟩ [] 250 rfl).1) (by decide)
  · exact ((c8_volatility_thresholds.1 ⟨some 200⟩ ["e2e4"] 200 rfl).2.1) (by decide) (by decide)
  · exact c8_volatility_thresholds.2.2 _ _ _ (by decide)

/-! ## Claim C9 -/

/-- C9 counterexample: at a centipawn loss of exactly 300 the source
classifies the move as a mistake, not the blunder the claim assigns to losses
of at least 300, because the source compares with a strict greater than. -/
theorem c9_counterexample :
    classifyMoveQuality 300 = "mistake" ∧ classifyMoveQuality 300 ≠ "blunder" := by
  constructor <;> decide

/-- C9 amended: the quality class is excellent for losses below 10, good for
losses from 10 up to and including 50, inaccuracy above 50 up to and
including 100, mistake above 100 up to and including 300, and blunder
strictly above 300; the class is always one of exactly these five, and the
quality of evaluate_move is this classification of the computed loss. -/
theorem c9_quality_thresholds :
    (∀ loss : Nat,
      (loss < 10 → classifyMoveQuality loss = "excellent")
      ∧ (10 ≤ loss → loss ≤ 50 → classifyMoveQuality loss = "good")
      ∧ (50 < loss → loss ≤ 100 → classifyMoveQuality loss = "inaccuracy")
      ∧ (100 < loss → loss ≤ 300 → classifyMoveQuality loss = "mistake")
      ∧ (300 < loss → classifyMoveQuality loss = "blunder")
      ∧ classifyMoveQuality loss ∈ ["excellent", "good", "inaccuracy", "mistake", "blunder"])
    ∧ ∀ evalBefore evalAfter : Int,
        evaluateMoveQuality evalBefore evalAfter
          = classifyMoveQuality (centipawnLossOf evalBefore evalAfter) := by
  constructor
  · intro loss
    refine ⟨?_, ?_, ?_, ?_, ?_, ?_⟩
    · intro h
      unfold classifyMoveQuality
      rw [if_neg (by omega), if_neg (by omega), if_neg (by omega), if_pos (by omega)]
    · intro h1 h2
      unfold classifyMoveQuality
      rw [if_neg (by omega), if_neg (by omega), if_neg (by omega), if_neg (by omega)]
    · intro h1 h2
      unfold classifyMoveQuality
      rw [if_neg (by omega), if_neg (by omega), if_pos (by omega)]
    · intro h1 h2
      unfold classifyMoveQuality
      rw [if_neg (by omega), if_pos (by omega)]
    · intro h
      unfold classifyMoveQuality
      rw [if_pos (by omega)]
    · unfold classifyMoveQuality
      split
      · simp
      · split
        · simp
        · split
          · simp
          · split
            · simp
            · simp
  · intro evalBefore evalAfter
    rfl

/-- C9 witness: the amended thresholds applied at the concrete losses 5, 50,
100, 300 and 301, and the evaluate_move composition at a concrete pair of
evaluations. -/
theorem c9_witness :
    classifyMoveQuality 5 = "excellent"
      ∧ classifyMoveQuality 50 = "good"
      ∧ classifyMoveQuality 100 = "inaccuracy"
      ∧ classifyMoveQuality 300 = "mistake"
      ∧ classifyMoveQuality 301 = "blunder"
      ∧ evaluateMoveQuality 20 (-15) = classifyMoveQuality (centipawnLossOf 20 (-15)) := by
  refine ⟨?_, ?_, ?_, ?_, ?_, ?_⟩
  · exact (c9_quality_thresholds.1 5).1 (by omega)
  · exact (c9_quality_thresholds.1 50).2.1 (by omega) (by omega)
  · exact (c9_quality_thresholds.1 100).2.2.1 (by omega) (by omega)
  · exact (c9_quality_thresholds.1 300).2.2.2.1 (by omega) (by omega)
  · exact (c9_quality_thresholds.1 301).2.2.2.2.1 (by omega)
  · exact c9_quality_thresholds.2 20 (-15)

/-! ## Claim C10 -/

/-- C10: on the five-candidate scenario, the aggressive personality selects
the 0.6-draw-rate candidate and the defensive personality selects the
0.2-draw-rate candidate, each as the head of its top-3-by-score shortlist. -/
theorem c10_opening_personality_selection :
    selectOpeningMove bookScenarioMoves "aggressive" true = some "e2e4"
      ∧ selectOpeningMove bookScenarioMoves "defensive" true = some "b1c3" := by
  constructor
  · norm_num [bookScenarioMoves, selectOpeningMove, sortDescBy, insertDescBy,
      aggressiveScore, defensiveScore, OpeningMove.draw_rate, OpeningMove.total_games]
    intro h
    simp at h
  · norm_num [bookScenarioMoves, selectOpeningMove, sortDescBy, insertDescBy,
      aggressiveScore, defensiveScore, OpeningMove.draw_rate, OpeningMove.total_games]
    exact ⟨by simp, by rfl⟩

/-! ## Claim C5 -/

/-- C5 counterexample: on the response e2e4d7d5 with candidate set e2e4, the
parsing rule as the claim words it extracts e2e4, the first in-set match of
the plain coordinate-move pattern, but _extract_move returns no move: the
source anchors the fallback pattern between word boundaries, and the
eight-character run of word characters has no internal boundary, so the
source pattern does not match at all. -/
theorem c5_counterexample :
    extractMove "e2e4d7d5" ["e2e4"] = none
      ∧ extractMoveClaim "e2e4d7d5" ["e2e4"] = some "e2e4"
      ∧ extractMove "e2e4d7d5" ["e2e4"] ≠ extractMoveClaim "e2e4d7d5" ["e2e4"] := by
  refine ⟨rfl, rfl, ?_⟩
  intro h
  cases h

/-- C5 amended: the response parser agrees everywhere with the parsing rule
amended so that the fallback coordinate-move pattern carries the word
boundaries of the source (strip wrappers, then the first candidate occurring
word-bounded, then the first in-set word-bounded coordinate-move match, then
no move), and a response from which no move is extracted consumes one attempt
of the retry budget of either retry loop and returns nothing from that
attempt. -/
theorem c5_parsing_rule :
    (∀ (r : String) (cands : List String), extractMove r cands = extractMoveSpec r cands)
    ∧ (∀ (run : Nat → Option String) (cands : List String) (i k : Nat) (t : String),
        run i = some t → extractMove t cands = none →
        hybridRetryLoop run cands i (k + 1)
          = ((hybridRetryLoop run cands (i + 1) k).1,
             (hybridRetryLoop run cands (i + 1) k).2 + 1))
    ∧ (∀ (run : Nat → Option String) (legal : List String) (i k : Nat) (t : String),
        run i = some t → extractMove t legal = none →
        fallbackRetryLoop run legal i (k + 1)
          = ((fallbackRetryLoop run legal (i + 1) k).1,
             (fallbackRetryLoop run legal (i + 1) k).2 + 1)) := by
  refine ⟨?_, ?_, ?_⟩
  · intro r cands
    unfold extractMove extractMoveSpec firstWordBoundedCandidate firstCoordMatchInSet
    rfl
  · intro run cands i k t hrun hex
    have hstep : hybridAttemptResult run cands i = none := by
      unfold hybridAttemptResult
      rw [hrun]
      dsimp only
      rw [hex]
    rw [hybridRetryLoop, hstep]
  · intro run legal i k t hrun hex
    have hstep : fallbackAttemptResult run legal i = none := by
      unfold fallbackAttemptResult
      rw [hrun]
      dsimp only
      rw [hex]
    rw [fallbackRetryLoop, hstep]

/-- C5 witness: the agreement applied to a concrete response, and a concrete
unparsable attempt consuming one unit of each retry budget. -/
theorem c5_witness :
    extractMove "I will play e2e4 now" ["d2d4", "e2e4"]
        = extractMoveSpec "I will play e2e4 now" ["d2d4", "e2e4"]
      ∧ hybridRetryLoop (fun _ => some "pass") ["e2e4"] 0 1
          = ((hybridRetryLoop (fun _ => some "pass") ["e2e4"] 1 0).1,
             (hybridRetryLoop (fun _ => some "pass") ["e2e4"] 1 0).2 + 1)
      ∧ fallbackRetryLoop (fun _ => some "pass") ["e2e4"] 0 1
          = ((fallbackRetryLoop (fun _ => some "pass") ["e2e4"] 1 0).1,
             (fallbackRetryLoop (fun _ => some "pass") ["e2e4"] 1 0).2 + 1) := by
  refine ⟨?_, ?_, ?_⟩
  · exact c5_parsing_rule.1 "I will play e2e4 now" ["d2d4", "e2e4"]
  · exact c5_parsing_rule.2.1 (fun _ => some "pass") ["e2e4"] 0 0 "pass" rfl (by decide)
  · exact c5_parsing_rule.2.2 (fun _ => some "pass") ["e2e4"] 0 0 "pass" rfl (by decide)

/-! ## Further helper lemmas for the retry loops -/

theorem hybridRetryLoop_count_le {run : Nat → Option String} {cands : List String} :
    ∀ (k i : Nat), (hybridRetryLoop run cands i k).2 ≤ k := by
  intro k
  induction k with
  | zero => intro i; simp [hybridRetryLoop]
  | succ k ih =>
      intro i
      rw [hybridRetryLoop]
      split
      · simp
      · simpa using Nat.succ_le_succ (ih (i + 1))

theorem hybridRetryLoop_all_fail {run : Nat → Option String} {cands : List String} :
    ∀ (k i : Nat), (∀ j, i ≤ j → j < i + k → hybridAttemptResult run cands j = none) →
      hybridRetryLoop run cands i k = (none, k) := by
  intro k
  induction k with
  | zero => intro i _; rfl
  | succ k ih =>
      intro i hfail
      rw [hybridRetryLoop]
      rw [hfail i (Nat.le_refl i) (by omega)]
      rw [ih (i + 1) (fun j hj1 hj2 => hfail j (by omega) (by omega))]

theorem getHybridAgentMove_total (cfg : AgentConfig) (run : Nat → Option String)
    (cands : List Candidate) (h : cands ≠ []) :
    ∃ m, getHybridAgentMove true (some cfg) run cands = Except.ok m := by
  unfold getHybridAgentMove
  simp only [Bool.not_true]
  cases hloop : (hybridRetryLoop run (cands.map (fun c => c.uci)) 0 cfg.max_retries).1 with
  | some m => exact ⟨m, rfl⟩
  | none =>
      obtain ⟨c, tl, rfl⟩ := List.exists_cons_of_ne_nil h
      exact ⟨c.uci, rfl⟩

/-! ## Claim C4 -/

/-- C4: the engine-constrained tier performs at most max_retries agent
invocations, the default retry budget is 3, and with a non-empty candidate
list the tier never raises: when every attempt within the budget fails to
yield a move inside the candidate set (agent exception, unparsable response
or out-of-set move all make hybridAttemptResult for that attempt nothing),
the tier returns the first, best-scored candidate after exactly max_retries
invocations. -/
theorem c4_hybrid_tier_fallback :
    (∀ (cfg : AgentConfig) (run : Nat → Option String) (cands : List Candidate),
        hybridAgentInvocations true (some cfg) run cands ≤ cfg.max_retries)
    ∧ ({} : AgentConfig).max_retries = 3
    ∧ (∀ (cfg : AgentConfig) (run : Nat → Option String) (cands : List Candidate)
        (h : cands ≠ []),
        (∀ i, i < cfg.max_retries →
            hybridAttemptResult run (cands.map (fun c => c.uci)) i = none) →
        getHybridAgentMove true (some cfg) run cands = Except.ok ((cands.head h).uci)
          ∧ hybridAgentInvocations true (some cfg) run cands = cfg.max_retries)
    ∧ (∀ (cfg : AgentConfig) (run : Nat → Option String) (cands : List Candidate),
        cands ≠ [] → ∃ m, getHybridAgentMove true (some cfg) run cands = Except.ok m) := by
  refine ⟨?_, rfl, ?_, fun cfg run cands h => getHybridAgentMove_total cfg run cands h⟩
  · intro cfg run cands
    unfold hybridAgentInvocations
    simp only [Bool.not_true]
    exact hybridRetryLoop_count_le cfg.max_retries 0
  · intro cfg run cands h hfail
    have hloop : hybridRetryLoop run (cands.map (fun c => c.uci)) 0 cfg.max_retries
        = (none, cfg.max_retries) :=
      hybridRetryLoop_all_fail cfg.max_retries 0
        (fun j _ hj2 => hfail j (by omega))
    constructor
    · unfold getHybridAgentMove
      simp only [Bool.not_true]
      rw [hloop]
      obtain ⟨c, tl, rfl⟩ := List.exists_cons_of_ne_nil h
      rfl
    · unfold hybridAgentInvocations
      simp only [Bool.not_true]
      rw [hloop]
      rfl

/-- C4 witness: an agent that always answers with text containing no
candidate move exhausts the default budget of 3 invocations and the tier
returns the best-scored candidate. -/
theorem c4_witness :
    getHybridAgentMove true (some {}) (fun _ => some "i resign")
        [⟨"e2e4", 25, []⟩, ⟨"d2d4", 10, []⟩] = Except.ok "e2e4"
      ∧ hybridAgentInvocations true (some {}) (fun _ => some "i resign")
          [⟨"e2e4", 25, []⟩, ⟨"d2d4", 10, []⟩] = ({} : AgentConfig).max_retries
      ∧ hybridAgentInvocations true (some {}) (fun _ => some "i resign")
          [⟨"e2e4", 25, []⟩, ⟨"d2d4", 10, []⟩] ≤ ({} : AgentConfig).max_retries := by
  have h := c4_hybrid_tier_fallback.2.2.1 {} (fun _ => some "i resign")
    [⟨"e2e4", 25, []⟩, ⟨"d2d4", 10, []⟩] (by decide) (fun i _ => rfl)
  exact ⟨h.1, h.2, c4_hybrid_tier_fallback.1 {} (fun _ => some "i resign")
    [⟨"e2e4", 25, []⟩, ⟨"d2d4", 10, []⟩]⟩

/-! ## Helper lemmas for the fallback chain theorems -/

theorem tbTierResult_none_of_losing {e : GetMoveEnv} {r : TablebaseResult} {w : Int}
    (htb : e.tbClient = some (Except.ok (some r)))
    (hwdl : r.wdl = some w) (hloss : w ≤ -1) : tbTierResult e = none := by
  unfold tbTierResult
  rw [htb]
  have hw : isWinning r.wdl = false := by
    unfold isWinning
    rw [hwdl]
    simp
    omega
  have hd : isDrawing r.wdl = false := by
    unfold isDrawing
    rw [hwdl]
    simp
    omega
  simp [hw, hd]

theorem llmFallbackMove_fst_ok_mem {e : GetMoveEnv} {off : Nat} {m : String}
    (h : (llmFallbackMove e off).1 = Except.ok m) : m ∈ e.board.legalMoves := by
  unfold llmFallbackMove at h
  exact getAgentMove_ok_mem h

theorem getMove_snd_after_tiers {e : GetMoveEnv}
    (hbook : bookTierResult e = none) (htb : tbTierResult e = none) :
    ∀ m s, getMove e = Except.ok (m, s) → s = "hybrid" ∨ s = "llm-fallback" := by
  intro m s h
  unfold getMove at h
  rw [hbook] at h
  dsimp only at h
  rw [htb] at h
  dsimp only at h
  split at h
  · split at h
    · cases h; right; rfl
    · cases h
  · split at h
    · split at h
      · cases h; right; rfl
      · cases h
    · split at h
      · split at h
        · cases h; right; rfl
        · split at h
          · cases h; right; rfl
          · cases h
      · split at h
        · cases h; left; rfl
        · split at h
          · cases h; right; rfl
          · cases h

/-! ## Claim C1 -/

/-- C1 counterexample: with the book and tablebase tiers inapplicable, an
evaluation collaborator that returns the candidate a1a2 although it is not a
legal move, and an agent that selects it, get_move returns a1a2 with source
hybrid even though a1a2 is not legal on the board: the hybrid tier validates
the agent answer against the candidate set but never against the legal-move
list, so the claim fails for arbitrary collaborator outputs. -/
theorem c1_counterexample :
    getMove c1CEnv = Except.ok ("a1a2", "hybrid")
      ∧ "a1a2" ∉ c1CEnv.board.legalMoves := by
  constructor
  · rfl
  · decide

/-- C1 amended: every move returned by get_move is legal in the input
position provided the evaluation collaborator returns only legal candidate
moves; the book, tablebase and pure-fallback tiers validate legality
unconditionally, and the hybrid tier returns a member of the candidate
list. -/
theorem c1_selectMove_legality (e : GetMoveEnv)
    (hcand : ∀ cands, e.topMoves = Except.ok cands → ∀ c ∈ cands, c.uci ∈ e.board.legalMoves) :
    ∀ m s, getMove e = Except.ok (m, s) → m ∈ e.board.legalMoves := by
  intro m s h
  unfold getMove at h
  cases hbook : bookTierResult e with
  | some uci =>
      rw [hbook] at h
      dsimp only at h
      cases h
      exact bookTierResult_mem hbook
  | none =>
      rw [hbook] at h
      dsimp only at h
      cases htb : tbTierResult e with
      | some uci =>
          rw [htb] at h
          dsimp only at h
          cases h
          exact tbTierResult_mem htb
      | none =>
          rw [htb] at h
          dsimp only at h
          split at h
          · split at h
            · next m' hm' =>
                cases h
                exact llmFallbackMove_fst_ok_mem hm'
            · cases h
          · split at h
            · split at h
              · next m' hm' =>
                  cases h
                  exact llmFallbackMove_fst_ok_mem hm'
              · cases h
            · next cands htop =>
                split at h
                · split at h
                  · next m' n hm' =>
                      cases h
                      exact llmFallbackMove_fst_ok_mem (by rw [hm'])
                  · next used hm' =>
                      split at h
                      · next m' hm2 =>
                          cases h
                          exact llmFallbackMove_fst_ok_mem hm2
                      · cases h
                · split at h
                  · next m' hm' =>
                      cases h
                      have hmem := getHybridAgentMove_ok_mem hm'
                      obtain ⟨c, hc, hcuci⟩ := List.mem_map.1 hmem
                      exact hcuci ▸ hcand cands htop c hc
                  · split at h
                    · next m' hm2 =>
                        cases h
                        exact llmFallbackMove_fst_ok_mem hm2
                    · cases h

/-- C1 witness: the amended legality theorem applied to a call whose
evaluation candidates are all legal. -/
theorem c1_witness : "e2e4" ∈ c1WEnv.board.legalMoves := by
  refine c1_selectMove_legality c1WEnv ?_ "e2e4" "hybrid" rfl
  intro cands hc c hmem
  have hc' : (Except.ok [(⟨"e2e4", 30, []⟩ : Candidate)] : Except Unit (List Candidate))
      = Except.ok cands := hc
  cases hc'
  simp at hmem
  subst hmem
  decide

/-! ## Claim C2 -/

/-- C2 counterexample: with the book and tablebase tiers inapplicable and the
evaluation source available but returning an empty candidate list, the
returned source tag is llm-fallback, not the engine-constrained hybrid tag
the claim requires whenever the evaluation source is available. -/
theorem c2_counterexample :
    getMove c2CEnv = Except.ok ("e2e4", "llm-fallback")
      ∧ c2CEnv.evalAvailable = true := by
  constructor
  · rfl
  · rfl

/-- C2 amended: when the book and tablebase tiers yield nothing, an
unavailable evaluation source makes every returned decision carry the
llm-fallback tag, and an available evaluation source yields the hybrid tag
provided its candidate query returns without error a non-empty list and the
agent with its configuration is registered; an available evaluation source
whose candidate query errors or returns an empty list falls through to the
llm-fallback tag instead. -/
theorem c2_source_precedence (e : GetMoveEnv)
    (hbook : bookTierResult e = none) (htb : tbTierResult e = none) :
    (e.evalAvailable = false →
      ∀ m s, getMove e = Except.ok (m, s) → s = "llm-fallback")
    ∧ (∀ (cands : List Candidate) (cfg : AgentConfig),
        e.evalAvailable = true → e.topMoves = Except.ok cands → cands ≠ [] →
        e.agentExists = true → e.agentConfig = some cfg →
        ∃ m, getMove e = Except.ok (m, "hybrid")) := by
  constructor
  · intro hav m s h
    unfold getMove at h
    rw [hbook] at h
    dsimp only at h
    rw [htb] at h
    dsimp only at h
    rw [hav] at h
    simp only [Bool.not_false, if_true] at h
    split at h
    · cases h; rfl
    · cases h
  · intro cands cfg hav htop hne hae hcfg
    obtain ⟨m, hm⟩ := getHybridAgentMove_total cfg e.hybridRun cands hne
    refine ⟨m, ?_⟩
    unfold getMove
    rw [hbook]
    dsimp only
    rw [htb]
    dsimp only
    rw [hav]
    simp only [Bool.not_true, Bool.false_eq_true, if_false]
    rw [htop]
    dsimp only
    rw [if_neg hne, hae, hcfg, hm]

/-- C2 witness: the amended precedence theorem applied to a call with a
usable candidate list and to a call with the evaluation source unavailable. -/
theorem c2_witness :
    (∃ m, getMove c2WEnv = Except.ok (m, "hybrid"))
      ∧ "llm-fallback" = "llm-fallback" := by
  constructor
  · exact (c2_source_precedence c2WEnv rfl rfl).2 [⟨"e2e4", 30, []⟩] {} rfl rfl
      (by decide) rfl rfl
  · exact (c2_source_precedence c2FEnv rfl rfl).1 rfl "e2e4" "llm-fallback" rfl

/-! ## Claim C3 -/

/-- C3: when the book tier yields nothing and the tablebase returns a best
move whose WDL value is a loss for the side to move, get_move never returns
with the tablebase source tag, legal or not; every returned decision comes
from the engine-constrained tier or the pure-fallback tier. -/
theorem c3_tablebase_losing_skip (e : GetMoveEnv) (r : TablebaseResult) (w : Int)
    (hbook : bookTierResult e = none)
    (htb : e.tbClient = some (Except.ok (some r)))
    (hwdl : r.wdl = some w) (hloss : w ≤ -1) :
    ∀ m s, getMove e = Except.ok (m, s) → s = "hybrid" ∨ s = "llm-fallback" :=
  getMove_snd_after_tiers hbook (tbTierResult_none_of_losing htb hwdl hloss)

/-- C3 witness: the losing-skip theorem applied to a call whose tablebase
move a1a2 is legal but classified as a loss; the selection proceeds to the
hybrid tier and plays e2e4. -/
theorem c3_witness :
    getMove c3Env = Except.ok ("e2e4", "hybrid")
      ∧ ("hybrid" = "hybrid" ∨ "hybrid" = "llm-fallback") := by
  constructor
  · rfl
  · exact c3_tablebase_losing_skip c3Env c3LossResult (-2) rfl rfl rfl (by omega)
      "e2e4" "hybrid" rfl

end OpenEnvChess
